import Mathlib

/-!
Shallow embedding of the snapcraft remote-build command
(`src/snapcraft/commands/remote.py`) and proofs about its
architecture resolution, plan validation and lifecycle behaviour.
-/

/-- Modelled from the spec: the per-architecture build state enumeration owned
by the external Build Farm Client (craft-application's `BuildState`), with
values PENDING, UPLOADING, RUNNING (building), SUCCESS, FAILED and
CANCELLED/other-stopped. -/
inductive BuildState where
  | PENDING
  | UPLOADING
  | BUILDING
  | SUCCESS
  | FAILED
  | CANCELLED
deriving DecidableEq, Repr

/-- Modelled from the spec: `is_running` is a derived predicate true only for
the RUNNING (building) state. -/
def BuildState.is_running : BuildState → Bool
  | .BUILDING => true
  | _ => false

/-- One monitoring snapshot: a mapping from architecture name to build state
(`states` in `_monitor_and_complete`). -/
abbrev Snapshot := List (String × BuildState)

/-- The five progress buckets used by the monitoring loop of
`_monitor_and_complete` (remote.py lines 292-307). `stopped` is the
`not_building` catch-all of the code. -/
inductive Bucket where
  | stopped
  | building
  | uploading
  | succeeded
  | pending
deriving DecidableEq, Repr

/-- The if/elif chain of `_monitor_and_complete` (remote.py lines 297-307)
that assigns one bucket to each architecture's state. -/
def classifyState (s : BuildState) : Bucket :=
  if s.is_running then .building
  else if s = .SUCCESS then .succeeded
  else if s = .UPLOADING then .uploading
  else if s = .PENDING then .pending
  else .stopped

/-- The set of architectures a snapshot puts in bucket `b` (the Python code
builds a `set`, so duplicates collapse). -/
def bucketArchs (states : Snapshot) (b : Bucket) : List String :=
  ((states.filter (fun p => classifyState p.2 = b)).map Prod.fst).dedup

/-- The sorted architecture list the code passes to `",".join(sorted(...))`. -/
def sortedBucket (states : Snapshot) (b : Bucket) : List String :=
  List.insertionSort (fun a b => a ≤ b) (bucketArchs states b)

/-- Label prefix of each bucket's progress part (remote.py lines 308-318). -/
def bucketLabel : Bucket → String
  | .stopped => "Stopped: "
  | .building => "Building: "
  | .uploading => "Uploading: "
  | .succeeded => "Succeeded: "
  | .pending => "Pending: "

/-- Separator each bucket's part uses in the code (`not_building` and
`uploading` use a bare comma, the others comma-space). -/
def bucketSep : Bucket → String
  | .stopped => ","
  | .building => ", "
  | .uploading => ","
  | .succeeded => ", "
  | .pending => ", "

/-- The fixed order in which `_monitor_and_complete` appends the bucket
parts to the progress line. -/
def bucketOrder : List Bucket := [.stopped, .building, .uploading, .succeeded, .pending]

/-- One rendered progress part for bucket `b`. -/
def partLine (states : Snapshot) (b : Bucket) : String :=
  bucketLabel b ++ String.intercalate (bucketSep b) (sortedBucket states b)

/-- The `progress_parts` list built by `_monitor_and_complete`
(remote.py lines 308-318): each non-empty bucket contributes one part, in
the code's fixed textual order. -/
def progressParts (states : Snapshot) : List String :=
  (if sortedBucket states .stopped = [] then [] else [partLine states .stopped]) ++
  (if sortedBucket states .building = [] then [] else [partLine states .building]) ++
  (if sortedBucket states .uploading = [] then [] else [partLine states .uploading]) ++
  (if sortedBucket states .succeeded = [] then [] else [partLine states .succeeded]) ++
  (if sortedBucket states .pending = [] then [] else [partLine states .pending])

/-- The consolidated progress line emitted per tick
(`emit.progress("; ".join(progress_parts))`). -/
def progressLine (states : Snapshot) : String :=
  String.intercalate "; " (progressParts states)

/-- One entry of the build plan: a `build-on` architecture paired with the
`build-for` architecture of the artifact it produces. -/
structure BuildInfo where
  build_on : String
  build_for : String
deriving DecidableEq, Repr

/-- Modelled from the spec: craft-application's `filter_plan` helper (called
with `platform=None, host_arch=None`) keeps exactly the declared targets whose
build-for matches the given entry. -/
def filter_plan (plan : List BuildInfo) (build_for : String) : List BuildInfo :=
  plan.filter (fun i => i.build_for = build_for)

/-- The `for build_for in build_fors` loop of `_get_archs`
(remote.py lines 388-397): extend `archs` with the filtered plan's build-for
values, and raise `EmptyBuildPlanError` (modelled as `.error ()`) when the
accumulated list is empty after an iteration. -/
def get_archs_go (plan : List BuildInfo) : List String → List String → Except Unit (List String)
  | [], acc => .ok acc
  | f :: rest, acc =>
    let acc' := acc ++ (filter_plan plan f).map BuildInfo.build_for
    if acc' = [] then .error () else get_archs_go plan rest acc'

/-- Embedding of `_get_archs` (remote.py lines 363-415). `declares` is the
`self.project.platforms or self.project._architectures_in_yaml` test, `plan`
is `self.build_plan`, `build_fors` the `--build-for` list (empty models the
falsy `None`/`[]` cases) and `host` is `str(DebianArchitecture.from_host())`. -/
def get_archs (declares : Bool) (plan : List BuildInfo) (build_fors : List String)
    (host : String) : Except Unit (List String) :=
  if declares then
    if build_fors = [] then .ok (plan.map BuildInfo.build_for)
    else get_archs_go plan build_fors []
  else if build_fors = [] then .ok [host]
  else .ok build_fors

/-- One step of the `build_map.setdefault(build_on, []).append(build_for)`
loop of `_validate_single_artifact_per_build_on`: dictionaries keep insertion
order, so an absent key is appended at the end and a present key gets the
value appended to its list. -/
def addToMap : List (String × List String) → String → String → List (String × List String)
  | [], k, v => [(k, [v])]
  | (k', vs) :: rest, k, v =>
    if k = k' then (k', vs ++ [v]) :: rest
    else (k', vs) :: addToMap rest k v

/-- The `build_map` of `_validate_single_artifact_per_build_on`
(remote.py lines 176-179): build-on to the list of its build-for values, in
plan order. -/
def build_map (plan : List BuildInfo) : List (String × List String) :=
  plan.foldl (fun m i => addToMap m i.build_on i.build_for) []

/-- The `build_on_errors` list (remote.py lines 182-188): the groups of
`build_map` holding more than one build-for value. -/
def build_on_errors (plan : List BuildInfo) : List (String × List String) :=
  (build_map plan).filter (fun p => 1 < p.2.length)

/-- Embedding of `_validate_single_artifact_per_build_on` (remote.py lines 171-202): raise
one combined `RemoteBuildError` carrying every offending group when
`build_on_errors` is non-empty (the error payload models the build-on and
build-for names interpolated into the message). -/
def validate_single_artifact_per_build_on (plan : List BuildInfo) :
    Except (List (String × List String)) Unit :=
  if build_on_errors plan = [] then .ok () else .error (build_on_errors plan)

/-- The build-for values the plan pairs with build-on value `k`, in plan
order (reference form used to state what the validator's error names). -/
def buildForsOf (plan : List BuildInfo) (k : String) : List String :=
  (plan.filter (fun i => i.build_on = k)).map BuildInfo.build_for

/-- The constant `os.EX_TEMPFAIL`, the temporary-failure exit code. -/
def EX_TEMPFAIL : Int := 75

/-- The constant `os.EX_OK`, the success exit code. -/
def EX_OK : Int := 0

/-- The exception kinds distinguished by `_run`'s handlers: the
`lazr.restfulclient.errors.Conflict` session conflict, the two client error
classes caught by the first `except` (`RemoteBuildError` and
`launchpad.LaunchpadError`), `TimeoutError`, `KeyboardInterrupt`, and any
other exception. -/
inductive Exc where
  | conflict
  | remoteBuildError
  | launchpadError
  | timeoutError
  | keyboardInterrupt
  | otherException
deriving DecidableEq, Repr

/-- How one call of `builder.monitor_builds()` unfolds: the snapshots yielded
before the generator either finishes normally, raises `TimeoutError`, is hit
by `KeyboardInterrupt`, or raises some other exception. -/
inductive MonitorOutcome where
  | normal (snaps : List Snapshot)
  | timeout (snaps : List Snapshot)
  | interrupt (snaps : List Snapshot)
  | failed (snaps : List Snapshot)
deriving DecidableEq, Repr

deriving instance DecidableEq for Except

/-- Modelled from the spec: the external Build Farm Client
(`self._services.remote_build`) as the coordinator observes it in one run:
the result of `start_builds`, of `resume_builds`, the way `monitor_builds`
unfolds, the mapping returned by `fetch_logs`, the list returned by
`fetch_artifacts`, and the operator's answer to the cancel prompt. -/
structure Client where
  start_result : Except Exc Unit
  resume_result : Except Exc Unit
  monitor : MonitorOutcome
  logs : List (String × Option String)
  artifacts : List String
  confirm_cancel : Bool
deriving DecidableEq, Repr

/-- The final `states` mapping after the monitoring loop: the last snapshot
yielded, or the initial empty mapping when none was yielded. -/
def lastSnap (snaps : List Snapshot) : Snapshot :=
  (snaps.getLast?).getD []

/-- The resume instruction and surrounding message printed by the
`except TimeoutError` handler of `_monitor_and_complete`
(remote.py lines 320-329); `build_id` is falsy in Python when `None` or
empty, and `{resume_command!r}` quotes the command. -/
def timeoutMessage (app_name : String) (build_id : Option String) : String :=
  let resume_command :=
    match build_id with
    | some bid =>
      if bid = "" then app_name ++ " remote-build --recover"
      else app_name ++ " remote-build --recover --build-id=" ++ bid
    | none => app_name ++ " remote-build --recover"
  "Timed out waiting for build.\nTo resume, run '" ++ resume_command ++ "'"

/-- What a run of `_monitor_and_complete` produced: its return value or the
exception that escaped it, the terminal messages it emitted (only the
timeout resume message is modelled), the progress lines of the ticks it saw,
and how often it called `fetch_logs` / `fetch_artifacts`. -/
structure MCOut where
  result : Except Exc Int
  messages : List String
  progress_lines : List String
  fetch_logs_calls : Nat
  fetch_artifacts_calls : Nat
deriving DecidableEq, Repr

/-- Embedding of `_monitor_and_complete` (remote.py lines 284-361). On timeout it prints
the resume message and returns `75`; on a normal end it flags any FAILED
architecture, always fetches logs then artifacts, flags an empty log mapping
or artifact list, and returns the accumulated return code. A
`KeyboardInterrupt` or any other exception escapes to `_run`. -/
def monitor_and_complete (app_name : String) (build_id : Option String) (c : Client) : MCOut :=
  match c.monitor with
  | .timeout snaps =>
    ⟨.ok 75, [timeoutMessage app_name build_id], snaps.map progressLine, 0, 0⟩
  | .interrupt snaps =>
    ⟨.error .keyboardInterrupt, [], snaps.map progressLine, 0, 0⟩
  | .failed snaps =>
    ⟨.error .otherException, [], snaps.map progressLine, 0, 0⟩
  | .normal snaps =>
    let states := lastSnap snaps
    let rc1 : Int := if states.any (fun p => p.2 = BuildState.FAILED) then 1 else 0
    let rc2 : Int := if c.logs = [] then 1 else rc1
    let rc3 : Int := if c.artifacts = [] then 1 else rc2
    ⟨.ok rc3, [], snaps.map progressLine, 1, 1⟩

/-- What a run of `_run` produced: its return value or the exception that
escaped it, how often each client operation was called, and the terminal
messages emitted while monitoring. -/
structure RunOut where
  result : Except Exc Int
  start_calls : Nat
  resume_calls : Nat
  cleanup_calls : Nat
  cancel_calls : Nat
  messages : List String
deriving DecidableEq, Repr

/-- The tail of `_run` after a successful submission or resumption
(remote.py lines 266-281): run `_monitor_and_complete`; on
`KeyboardInterrupt` optionally cancel and clean up and return `os.EX_OK`; on
any other exception set the return code to 1; finally clean up unless the
return code is `os.EX_TEMPFAIL`. `sc`/`rc` carry the submission-phase call
counts. -/
def afterSubmit (app_name : String) (build_id : Option String) (c : Client)
    (sc rc : Nat) : RunOut :=
  match (monitor_and_complete app_name build_id c).result with
  | .error .keyboardInterrupt =>
    if c.confirm_cancel then
      ⟨.ok EX_OK, sc, rc, 1, 1, (monitor_and_complete app_name build_id c).messages⟩
    else ⟨.ok EX_OK, sc, rc, 0, 0, (monitor_and_complete app_name build_id c).messages⟩
  | .error _ => ⟨.ok 1, sc, rc, 1, 0, (monitor_and_complete app_name build_id c).messages⟩
  | .ok code =>
    if code = EX_TEMPFAIL then
      ⟨.ok code, sc, rc, 0, 0, (monitor_and_complete app_name build_id c).messages⟩
    else ⟨.ok code, sc, rc, 1, 0, (monitor_and_complete app_name build_id c).messages⟩

/-- The submission-and-monitoring part of `_run` (remote.py lines 245-281).
With `--recover` it calls `resume_builds` (whose exceptions propagate with no
handler); otherwise it calls `start_builds`, cleaning up and re-raising on
`RemoteBuildError`/`LaunchpadError`, cleaning up and returning
`os.EX_TEMPFAIL` on `Conflict`, and letting any other exception propagate
untouched. -/
def run (app_name : String) (recover : Bool) (build_id : Option String) (c : Client) : RunOut :=
  if recover then
    match c.resume_result with
    | .error e => ⟨.error e, 0, 1, 0, 0, []⟩
    | .ok _ => afterSubmit app_name build_id c 0 1
  else
    match c.start_result with
    | .ok _ => afterSubmit app_name build_id c 1 0
    | .error e =>
      if e = .remoteBuildError ∨ e = .launchpadError then ⟨.error e, 1, 0, 1, 0, []⟩
      else if e = .conflict then ⟨.ok EX_TEMPFAIL, 1, 0, 1, 0, []⟩
      else ⟨.error e, 1, 0, 0, 0, []⟩

/-- Substring containment, used to state what the printed resume
instruction contains. -/
def strContains (needle hay : String) : Prop :=
  ∃ pre post, hay.data = pre ++ needle.data ++ post

theorem strContains_of_eq (needle hay : String) (pre post : List Char)
    (h : hay.data = pre ++ needle.data ++ post) : strContains needle hay :=
  ⟨pre, post, h⟩

theorem tm_recover (app : String) (bid : Option String) :
    strContains "--recover" (timeoutMessage app bid) := by
  have h1 : (" remote-build --recover" : String).data
      = (" remote-build " : String).data ++ ("--recover" : String).data := by decide
  have h2 : (" remote-build --recover --build-id=" : String).data
      = (" remote-build " : String).data ++ ("--recover" : String).data
        ++ (" --build-id=" : String).data := by decide
  match bid with
  | none =>
    refine strContains_of_eq _ _
      (("Timed out waiting for build.\nTo resume, run '" : String).data ++ app.data
        ++ (" remote-build " : String).data) (("'" : String).data) ?_
    simp [timeoutMessage, String.data_append, h1]
  | some i =>
    by_cases hi : i = ""
    · refine strContains_of_eq _ _
        (("Timed out waiting for build.\nTo resume, run '" : String).data ++ app.data
          ++ (" remote-build " : String).data) (("'" : String).data) ?_
      simp [timeoutMessage, hi, String.data_append, h1]
    · refine strContains_of_eq _ _
        (("Timed out waiting for build.\nTo resume, run '" : String).data ++ app.data
          ++ (" remote-build " : String).data)
        ((" --build-id=" : String).data ++ i.data ++ ("'" : String).data) ?_
      simp [timeoutMessage, hi, String.data_append, h2]

theorem tm_build_id (app : String) (i : String) (hi : i ≠ "") :
    strContains ("--build-id=" ++ i) (timeoutMessage app (some i)) := by
  have h2 : (" remote-build --recover --build-id=" : String).data
      = (" remote-build --recover " : String).data ++ ("--build-id=" : String).data := by
    decide
  refine strContains_of_eq _ _
    (("Timed out waiting for build.\nTo resume, run '" : String).data ++ app.data
      ++ (" remote-build --recover " : String).data) (("'" : String).data) ?_
  simp [timeoutMessage, hi, String.data_append, h2]

theorem afterSubmit_start_calls (app : String) (bid : Option String) (c : Client) (sc rc : Nat) :
    (afterSubmit app bid c sc rc).start_calls = sc := by
  unfold afterSubmit
  split <;> first | rfl | (split <;> rfl)

theorem afterSubmit_resume_calls (app : String) (bid : Option String) (c : Client) (sc rc : Nat) :
    (afterSubmit app bid c sc rc).resume_calls = rc := by
  unfold afterSubmit
  split <;> first | rfl | (split <;> rfl)

theorem run_reach (app : String) (recover : Bool) (bid : Option String) (c : Client)
    (hreach : (if recover then c.resume_result else c.start_result) = .ok ()) :
    run app recover bid c
      = afterSubmit app bid c (if recover then 0 else 1) (if recover then 1 else 0) := by
  cases recover
  · simp only [Bool.false_eq_true, ite_false] at hreach ⊢
    simp [run, hreach]
  · simp only [ite_true] at hreach ⊢
    simp [run, hreach]

theorem mc_normal (app : String) (bid : Option String) (c : Client) (snaps : List Snapshot)
    (hmon : c.monitor = .normal snaps) :
    monitor_and_complete app bid c =
      ⟨.ok (if ((lastSnap snaps).any (fun p => p.2 = BuildState.FAILED)) = true
              ∨ c.logs = [] ∨ c.artifacts = [] then 1 else 0),
        [], snaps.map progressLine, 1, 1⟩ := by
  simp only [monitor_and_complete, hmon]
  by_cases h1 : ((lastSnap snaps).any (fun p => p.2 = BuildState.FAILED)) = true <;>
  by_cases h2 : c.logs = [] <;> by_cases h3 : c.artifacts = [] <;>
    simp [h1, h2, h3]

/-- C1: if the monitoring loop raises the local timeout, the run prints a
resume instruction containing `--recover` (and `--build-id=<id>` when a build
id is known), returns the temporary-failure exit code 75 (`os.EX_TEMPFAIL`),
and never invokes `cleanup()` on this path. -/
theorem C1_timeout_resume_skips_cleanup (app : String) (recover : Bool) (bid : Option String)
    (c : Client) (snaps : List Snapshot)
    (hreach : (if recover then c.resume_result else c.start_result) = .ok ())
    (hmon : c.monitor = .timeout snaps) :
    (run app recover bid c).result = .ok EX_TEMPFAIL ∧
    (run app recover bid c).cleanup_calls = 0 ∧
    (run app recover bid c).messages = [timeoutMessage app bid] ∧
    strContains "--recover" (timeoutMessage app bid) ∧
    ∀ i, bid = some i → i ≠ "" → strContains ("--build-id=" ++ i) (timeoutMessage app bid) := by
  rw [run_reach app recover bid c hreach]
  have hmc : afterSubmit app bid c (if recover then 0 else 1) (if recover then 1 else 0)
      = ⟨.ok 75, (if recover then 0 else 1), (if recover then 1 else 0), 0, 0,
          [timeoutMessage app bid]⟩ := by
    simp [afterSubmit, monitor_and_complete, hmon, EX_TEMPFAIL]
  rw [hmc]
  refine ⟨rfl, rfl, rfl, tm_recover app bid, ?_⟩
  intro i hbid hi
  subst hbid
  exact tm_build_id app i hi

theorem C1_witness :
    (run "snapcraft" false (some "abc123")
        ⟨.ok (), .ok (), .timeout [], [], [], false⟩).result = .ok EX_TEMPFAIL ∧
    (run "snapcraft" false (some "abc123")
        ⟨.ok (), .ok (), .timeout [], [], [], false⟩).cleanup_calls = 0 ∧
    strContains ("--build-id=" ++ "abc123") (timeoutMessage "snapcraft" (some "abc123")) := by
  have h := C1_timeout_resume_skips_cleanup "snapcraft" false (some "abc123")
    ⟨.ok (), .ok (), .timeout [], [], [], false⟩ [] rfl rfl
  exact ⟨h.1, h.2.1, h.2.2.2.2 "abc123" rfl (by decide)⟩

/-- C2: on a fresh (non-recover) submission, a session-already-exists
conflict from `start_builds` invokes `cleanup()` exactly once and returns
`os.EX_TEMPFAIL` without the conflict exception propagating. -/
theorem C2_conflict_cleans_up_returns_tempfail (app : String) (bid : Option String) (c : Client)
    (hc : c.start_result = .error .conflict) :
    (run app false bid c).result = .ok EX_TEMPFAIL ∧ (run app false bid c).cleanup_calls = 1 := by
  simp [run, hc]

theorem C2_witness :
    (run "snapcraft" false none
        ⟨.error .conflict, .ok (), .timeout [], [], [], false⟩).result = .ok EX_TEMPFAIL ∧
    (run "snapcraft" false none
        ⟨.error .conflict, .ok (), .timeout [], [], [], false⟩).cleanup_calls = 1 :=
  C2_conflict_cleans_up_returns_tempfail "snapcraft" none
    ⟨.error .conflict, .ok (), .timeout [], [], [], false⟩ rfl

/-- C6: every submission-time failure of `start_builds` that the client
contract allows other than the session conflict (a `RemoteBuildError` or a
`LaunchpadError`) triggers `cleanup()` and is then re-raised unchanged. -/
theorem C6_other_submit_error_cleanup_reraise (app : String) (bid : Option String) (c : Client)
    (e : Exc) (he : c.start_result = .error e)
    (hgen : e = .remoteBuildError ∨ e = .launchpadError) :
    (run app false bid c).result = .error e ∧ (run app false bid c).cleanup_calls = 1 := by
  rcases hgen with rfl | rfl <;> simp [run, he]

theorem C6_witness :
    (run "snapcraft" false none
        ⟨.error .remoteBuildError, .ok (), .timeout [], [], [], false⟩).result
      = .error .remoteBuildError ∧
    (run "snapcraft" false none
        ⟨.error .remoteBuildError, .ok (), .timeout [], [], [], false⟩).cleanup_calls = 1 :=
  C6_other_submit_error_cleanup_reraise "snapcraft" none
    ⟨.error .remoteBuildError, .ok (), .timeout [], [], [], false⟩ .remoteBuildError rfl
    (Or.inl rfl)

/-- C7: after the monitoring loop ends normally, `fetch_logs` and
`fetch_artifacts` are both invoked, and the return code is 0 iff no final
state is FAILED, the log mapping is non-empty and the artifact list is
non-empty; otherwise it is 1. -/
theorem C7_normal_end_fetches_and_return_code (app : String) (bid : Option String) (c : Client)
    (snaps : List Snapshot) (hmon : c.monitor = .normal snaps) :
    (monitor_and_complete app bid c).fetch_logs_calls = 1 ∧
    (monitor_and_complete app bid c).fetch_artifacts_calls = 1 ∧
    ((monitor_and_complete app bid c).result = .ok 0 ↔
      ((∀ p ∈ lastSnap snaps, p.2 ≠ BuildState.FAILED) ∧ c.logs ≠ [] ∧ c.artifacts ≠ [])) ∧
    ((monitor_and_complete app bid c).result = .ok 0 ∨
      (monitor_and_complete app bid c).result = .ok 1) := by
  rw [mc_normal app bid c snaps hmon]
  dsimp only
  refine ⟨rfl, rfl, ?_, ?_⟩
  · by_cases hC : (((lastSnap snaps).any (fun p => p.2 = BuildState.FAILED)) = true
        ∨ c.logs = [] ∨ c.artifacts = [])
    · rw [if_pos hC]
      constructor
      · intro h
        exact absurd h (by decide)
      · rintro ⟨hall, hlogs, harts⟩
        rcases hC with hany | h | h
        · rw [List.any_eq_true] at hany
          obtain ⟨p, hp, hfp⟩ := hany
          exact absurd (of_decide_eq_true hfp) (hall p hp)
        · exact absurd h hlogs
        · exact absurd h harts
    · rw [if_neg hC]
      constructor
      · intro _
        refine ⟨?_, ?_, ?_⟩
        · intro p hp hfp
          apply hC
          left
          rw [List.any_eq_true]
          exact ⟨p, hp, decide_eq_true hfp⟩
        · intro h
          exact hC (Or.inr (Or.inl h))
        · intro h
          exact hC (Or.inr (Or.inr h))
      · intro _
        rfl
  · by_cases hC : (((lastSnap snaps).any (fun p => p.2 = BuildState.FAILED)) = true
        ∨ c.logs = [] ∨ c.artifacts = [])
    · rw [if_pos hC]
      right
      rfl
    · rw [if_neg hC]
      left
      rfl

theorem C7_witness :
    (monitor_and_complete "snapcraft" none
        ⟨.ok (), .ok (), .normal [[("amd64", BuildState.SUCCESS)]],
          [("amd64", some "log")], ["a.snap"], false⟩).fetch_logs_calls = 1 ∧
    (monitor_and_complete "snapcraft" none
        ⟨.ok (), .ok (), .normal [[("amd64", BuildState.SUCCESS)]],
          [("amd64", some "log")], ["a.snap"], false⟩).fetch_artifacts_calls = 1 ∧
    (monitor_and_complete "snapcraft" none
        ⟨.ok (), .ok (), .normal [[("amd64", BuildState.SUCCESS)]],
          [("amd64", some "log")], ["a.snap"], false⟩).result = .ok 0 := by
  have h := C7_normal_end_fetches_and_return_code "snapcraft" none
    ⟨.ok (), .ok (), .normal [[("amd64", BuildState.SUCCESS)]],
      [("amd64", some "log")], ["a.snap"], false⟩ [[("amd64", BuildState.SUCCESS)]] rfl
  exact ⟨h.1, h.2.1, h.2.2.1.mpr ⟨by decide, by decide, by decide⟩⟩

/-- C9: on a keyboard interrupt during monitoring, confirming cancellation
calls `cancel_builds` and then `cleanup()`, declining calls neither, and in
both cases the exit code is `os.EX_OK`. -/
theorem C9_interrupt_cancel_paths (app : String) (recover : Bool) (bid : Option String)
    (c : Client) (snaps : List Snapshot)
    (hreach : (if recover then c.resume_result else c.start_result) = .ok ())
    (hmon : c.monitor = .interrupt snaps) :
    (run app recover bid c).result = .ok EX_OK ∧
    (run app recover bid c).cancel_calls = (if c.confirm_cancel then 1 else 0) ∧
    (run app recover bid c).cleanup_calls = (if c.confirm_cancel then 1 else 0) := by
  rw [run_reach app recover bid c hreach]
  cases hcc : c.confirm_cancel <;>
    simp [afterSubmit, monitor_and_complete, hmon, hcc]

theorem C9_witness :
    (run "snapcraft" false none
        ⟨.ok (), .ok (), .interrupt [], [], [], true⟩).result = .ok EX_OK ∧
    (run "snapcraft" false none
        ⟨.ok (), .ok (), .interrupt [], [], [], true⟩).cancel_calls = 1 ∧
    (run "snapcraft" false none
        ⟨.ok (), .ok (), .interrupt [], [], [], true⟩).cleanup_calls = 1 :=
  C9_interrupt_cancel_paths "snapcraft" false none
    ⟨.ok (), .ok (), .interrupt [], [], [], true⟩ [] rfl rfl

/-- C10: on the `--recover` path `start_builds` is never called and
`resume_builds` is called instead; every exception of `resume_builds`
propagates unchanged with neither `cancel_builds` nor `cleanup()` invoked. -/
theorem C10_recover_resumes_and_leaves_session (app : String) (bid : Option String)
    (c : Client) :
    (run app true bid c).start_calls = 0 ∧
    (run app true bid c).resume_calls = 1 ∧
    ∀ e, c.resume_result = .error e →
      (run app true bid c).result = .error e ∧
      (run app true bid c).cleanup_calls = 0 ∧
      (run app true bid c).cancel_calls = 0 := by
  refine ⟨?_, ?_, ?_⟩
  · cases hr : c.resume_result with
    | error e => simp [run, hr]
    | ok u => simp [run, hr, afterSubmit_start_calls]
  · cases hr : c.resume_result with
    | error e => simp [run, hr]
    | ok u => simp [run, hr, afterSubmit_resume_calls]
  · intro e he
    simp [run, he]

theorem C10_witness :
    (run "snapcraft" true none
        ⟨.ok (), .error .launchpadError, .timeout [], [], [], false⟩).start_calls = 0 ∧
    (run "snapcraft" true none
        ⟨.ok (), .error .launchpadError, .timeout [], [], [], false⟩).resume_calls = 1 ∧
    (run "snapcraft" true none
        ⟨.ok (), .error .launchpadError, .timeout [], [], [], false⟩).result
      = .error .launchpadError ∧
    (run "snapcraft" true none
        ⟨.ok (), .error .launchpadError, .timeout [], [], [], false⟩).cleanup_calls = 0 ∧
    (run "snapcraft" true none
        ⟨.ok (), .error .launchpadError, .timeout [], [], [], false⟩).cancel_calls = 0 := by
  have h := C10_recover_resumes_and_leaves_session "snapcraft" none
    ⟨.ok (), .error .launchpadError, .timeout [], [], [], false⟩
  have h2 := h.2.2 .launchpadError rfl
  exact ⟨h.1, h.2.1, h2.1, h2.2.1, h2.2.2⟩

theorem get_archs_go_ok (plan : List BuildInfo) (fs : List String) (acc res : List String)
    (h : get_archs_go plan fs acc = .ok res) :
    res = acc ++ fs.flatMap (fun f => (filter_plan plan f).map BuildInfo.build_for) := by
  induction fs generalizing acc with
  | nil =>
    simp [get_archs_go] at h
    simp [h]
  | cons f rest ih =>
    rw [get_archs_go] at h
    by_cases hempty : acc ++ (filter_plan plan f).map BuildInfo.build_for = []
    · simp [hempty] at h
    · rw [if_neg hempty] at h
      have := ih _ h
      simp [this, List.flatMap_cons, List.append_assoc]

theorem get_archs_go_ne_error (plan : List BuildInfo) (fs : List String) (acc : List String)
    (hacc : acc ≠ []) : ∃ res, get_archs_go plan fs acc = .ok res := by
  induction fs generalizing acc with
  | nil => exact ⟨acc, rfl⟩
  | cons f rest ih =>
    rw [get_archs_go]
    have hne : acc ++ (filter_plan plan f).map BuildInfo.build_for ≠ [] := by
      simp [hacc]
    rw [if_neg hne]
    exact ih _ hne

/-- C3: the three-mode priority of `_get_archs`: a declaring project returns
its plan's build-for values in plan order when no override is given and the
accumulated filter matches when the filter mode succeeds; a non-declaring
project returns a non-empty override list verbatim; with neither, the host
architecture alone is returned. -/
theorem C3_three_mode_priority (plan : List BuildInfo) (build_fors : List String)
    (host : String) :
    (get_archs true plan [] host = .ok (plan.map BuildInfo.build_for)) ∧
    (∀ res, build_fors ≠ [] → get_archs true plan build_fors host = .ok res →
      res = build_fors.flatMap (fun f => (filter_plan plan f).map BuildInfo.build_for)) ∧
    (build_fors ≠ [] → get_archs false plan build_fors host = .ok build_fors) ∧
    (get_archs false plan [] host = .ok [host]) := by
  refine ⟨by simp [get_archs], ?_, ?_, by simp [get_archs]⟩
  · intro res hne hok
    rw [get_archs, if_pos rfl, if_neg hne] at hok
    simpa using get_archs_go_ok plan build_fors [] res hok
  · intro hne
    simp [get_archs, hne]

theorem C3_witness :
    (get_archs true [⟨"amd64", "amd64"⟩] [] "riscv64" = .ok ["amd64"]) ∧
    (["amd64"] : List String)
      = ["amd64"].flatMap (fun f => (filter_plan [⟨"amd64", "amd64"⟩] f).map BuildInfo.build_for) ∧
    (get_archs false [] ["s390x"] "riscv64" = .ok ["s390x"]) ∧
    (get_archs false [] [] "riscv64" = .ok ["riscv64"]) := by
  have h := C3_three_mode_priority [⟨"amd64", "amd64"⟩] ["amd64"] "riscv64"
  have h2 := C3_three_mode_priority ([] : List BuildInfo) ["s390x"] "riscv64"
  exact ⟨h.1, h.2.1 ["amd64"] (by decide) (by decide), h2.2.2.1 (by decide), h2.2.2.2⟩

/-- C4 fails on the code: with declared plan `[(amd64, amd64)]` and override
list `["arm64", "amd64"]`, filtering by the whole list yields `["amd64"]`
(non-empty) and the second entry matches, yet resolution raises
`EmptyBuildPlanError`, because the emptiness check runs inside the loop after
the first entry; reordering the same list succeeds, refuting order
independence. -/
theorem C4_counterexample :
    get_archs true [⟨"amd64", "amd64"⟩] ["arm64", "amd64"] "riscv64" = .error () ∧
    (["arm64", "amd64"].flatMap
      (fun f => (filter_plan [⟨"amd64", "amd64"⟩] f).map BuildInfo.build_for)) = ["amd64"] ∧
    get_archs true [⟨"amd64", "amd64"⟩] ["amd64", "arm64"] "riscv64" = .ok ["amd64"] :=
  ⟨by decide, by decide, by decide⟩

/-- C4 amended: for a declared plan and a non-empty override list, resolution
fails with `EmptyBuildPlan` iff the FIRST entry of the list matches no
build-for of the plan; when it succeeds it returns the matches accumulated
over the whole list. -/
theorem C4_amended_first_entry_decides (plan : List BuildInfo) (f : String) (fs : List String)
    (host : String) :
    (get_archs true plan (f :: fs) host = .error () ↔ filter_plan plan f = []) ∧
    (∀ res, get_archs true plan (f :: fs) host = .ok res →
      res = (f :: fs).flatMap (fun g => (filter_plan plan g).map BuildInfo.build_for)) := by
  have hred : get_archs true plan (f :: fs) host = get_archs_go plan (f :: fs) [] := by
    simp [get_archs]
  constructor
  · rw [hred, get_archs_go]
    simp only [List.nil_append]
    constructor
    · intro h
      by_cases hm : (filter_plan plan f).map BuildInfo.build_for = []
      · simpa using hm
      · rw [if_neg hm] at h
        obtain ⟨res, hres⟩ := get_archs_go_ne_error plan fs _ hm
        rw [hres] at h
        cases h
    · intro h
      have hm : (filter_plan plan f).map BuildInfo.build_for = [] := by simp [h]
      rw [if_pos hm]
  · intro res hok
    rw [hred] at hok
    simpa using get_archs_go_ok plan (f :: fs) [] res hok

theorem C4_amended_witness :
    (get_archs true [⟨"amd64", "amd64"⟩] ["amd64", "arm64"] "riscv64" = .error ()
      ↔ filter_plan [⟨"amd64", "amd64"⟩] "amd64" = []) ∧
    (["amd64"] : List String) = ["amd64", "arm64"].flatMap
      (fun g => (filter_plan [⟨"amd64", "amd64"⟩] g).map BuildInfo.build_for) := by
  have h := C4_amended_first_entry_decides [⟨"amd64", "amd64"⟩] "amd64" ["arm64"] "riscv64"
  exact ⟨h.1, h.2 ["amd64"] (by decide)⟩

theorem lookup_addToMap_self (m : List (String × List String)) (k v : String) :
    (addToMap m k v).lookup k = some (((m.lookup k).getD []) ++ [v]) := by
  induction m with
  | nil => simp [addToMap, List.lookup]
  | cons p rest ih =>
    obtain ⟨k', vs⟩ := p
    by_cases hk : k = k'
    · subst hk
      simp [addToMap, List.lookup]
    · have hb : (k == k') = false := beq_eq_false_iff_ne.mpr hk
      simp [addToMap, hk, List.lookup, ih, hb]

theorem lookup_addToMap_ne (m : List (String × List String)) (k v k' : String)
    (h : k' ≠ k) : (addToMap m k v).lookup k' = m.lookup k' := by
  have hb : (k' == k) = false := beq_eq_false_iff_ne.mpr h
  induction m with
  | nil => simp [addToMap, List.lookup, hb]
  | cons p rest ih =>
    obtain ⟨k₀, vs⟩ := p
    by_cases hk : k = k₀
    · subst hk
      simp [addToMap, List.lookup, hb]
    · by_cases hk' : k' = k₀
      · subst hk'
        simp [addToMap, hk, List.lookup]
      · have hb' : (k' == k₀) = false := beq_eq_false_iff_ne.mpr hk'
        simp [addToMap, hk, List.lookup, hb', ih]

theorem fst_addToMap (m : List (String × List String)) (k v : String) :
    (addToMap m k v).map Prod.fst
      = if k ∈ m.map Prod.fst then m.map Prod.fst else m.map Prod.fst ++ [k] := by
  induction m with
  | nil => simp [addToMap]
  | cons p rest ih =>
    obtain ⟨k', vs⟩ := p
    by_cases hk : k = k'
    · subst hk
      simp [addToMap]
    · by_cases hmem : k ∈ rest.map Prod.fst <;>
        simp [addToMap, hk, hmem, ih, Ne.symm hk]

theorem nodup_fst_addToMap (m : List (String × List String)) (k v : String)
    (h : (m.map Prod.fst).Nodup) : ((addToMap m k v).map Prod.fst).Nodup := by
  rw [fst_addToMap]
  by_cases hmem : k ∈ m.map Prod.fst
  · simpa [hmem] using h
  · simp [hmem, List.nodup_append, h]

theorem mem_iff_lookup_eq_some (m : List (String × List String))
    (h : (m.map Prod.fst).Nodup) (k : String) (vs : List String) :
    (k, vs) ∈ m ↔ m.lookup k = some vs := by
  induction m with
  | nil => simp [List.lookup]
  | cons p rest ih =>
    obtain ⟨k₀, vs₀⟩ := p
    simp only [List.map_cons, List.nodup_cons] at h
    by_cases hk : k = k₀
    · subst hk
      have hnot : (k, vs) ∉ rest := by
        intro hmem
        exact h.1 (List.mem_map.mpr ⟨(k, vs), hmem, rfl⟩)
      simp [List.lookup, hnot, eq_comm]
    · have hb : (k == k₀) = false := beq_eq_false_iff_ne.mpr hk
      simp [List.lookup, hk, ih h.2, hb]

theorem build_map_concat (plan : List BuildInfo) (i : BuildInfo) :
    build_map (plan ++ [i]) = addToMap (build_map plan) i.build_on i.build_for := by
  simp [build_map, List.foldl_append]

theorem nodup_fst_build_map (plan : List BuildInfo) :
    ((build_map plan).map Prod.fst).Nodup := by
  induction plan using List.reverseRecOn with
  | nil => simp [build_map]
  | append_singleton l i ih =>
    rw [build_map_concat]
    exact nodup_fst_addToMap _ _ _ ih

theorem buildForsOf_concat (plan : List BuildInfo) (i : BuildInfo) (k : String) :
    buildForsOf (plan ++ [i]) k
      = buildForsOf plan k ++ (if i.build_on = k then [i.build_for] else []) := by
  by_cases hk : i.build_on = k <;> simp [buildForsOf, List.filter_append, hk]

theorem lookup_build_map (plan : List BuildInfo) (k : String) :
    (build_map plan).lookup k
      = if buildForsOf plan k = [] then none else some (buildForsOf plan k) := by
  induction plan using List.reverseRecOn with
  | nil => simp [build_map, buildForsOf, List.lookup]
  | append_singleton l i ih =>
    rw [build_map_concat, buildForsOf_concat]
    by_cases hk : i.build_on = k
    · rw [hk, lookup_addToMap_self, ih]
      by_cases hempty : buildForsOf l k = [] <;> simp [hempty, hk]
    · rw [lookup_addToMap_ne _ _ _ _ (fun h => hk h.symm), ih]
      simp [hk]

theorem mem_build_map (plan : List BuildInfo) (k : String) (vs : List String) :
    (k, vs) ∈ build_map plan ↔ (buildForsOf plan k ≠ [] ∧ vs = buildForsOf plan k) := by
  rw [mem_iff_lookup_eq_some _ (nodup_fst_build_map plan), lookup_build_map]
  by_cases hempty : buildForsOf plan k = [] <;> simp [hempty, eq_comm]

theorem length_buildForsOf (plan : List BuildInfo) (k : String) :
    (buildForsOf plan k).length = plan.countP (fun i => i.build_on = k) := by
  simp [buildForsOf, List.countP_eq_length_filter]

/-- C5 fails on the code: a plan repeating the same (build-on, build-for)
pair has only ONE distinct build-for for that build-on, yet
`_validate_single_artifact_per_build_on` raises, because it counts list
entries (`len(build_fors) > 1`), not distinct values. -/
theorem C5_counterexample :
    validate_single_artifact_per_build_on [⟨"amd64", "amd64"⟩, ⟨"amd64", "amd64"⟩]
      = .error [("amd64", ["amd64", "amd64"])] ∧
    (buildForsOf [⟨"amd64", "amd64"⟩, ⟨"amd64", "amd64"⟩] "amd64").dedup = ["amd64"] :=
  ⟨by decide, by decide⟩

/-- C5 amended: validation fails iff some build-on value is paired with more
than one build-for ENTRY (occurrences, not distinct values), and the single
combined error names every offending build-on together with all of its
build-for values in plan order. -/
theorem C5_amended_occurrence_count (plan : List BuildInfo) :
    (validate_single_artifact_per_build_on plan = .ok ()
      ↔ ∀ k, plan.countP (fun i => i.build_on = k) ≤ 1) ∧
    ∀ errs, validate_single_artifact_per_build_on plan = .error errs →
      errs ≠ [] ∧
      (∀ p ∈ errs, 1 < p.2.length ∧ p.2 = buildForsOf plan p.1) ∧
      (∀ k, 1 < plan.countP (fun i => i.build_on = k) → (k, buildForsOf plan k) ∈ errs) := by
  constructor
  · constructor
    · intro hok k
      by_contra hgt
      push_neg at hgt
      have hne : buildForsOf plan k ≠ [] := by
        intro hnil
        rw [← length_buildForsOf, hnil] at hgt
        simp at hgt
      have hmem : (k, buildForsOf plan k) ∈ build_map plan :=
        (mem_build_map plan k _).mpr ⟨hne, rfl⟩
      have hlen : 1 < (buildForsOf plan k).length := by
        rw [length_buildForsOf]
        exact hgt
      have hfil : (k, buildForsOf plan k) ∈ build_on_errors plan :=
        List.mem_filter.mpr ⟨hmem, decide_eq_true hlen⟩
      rw [validate_single_artifact_per_build_on] at hok
      by_cases hemp : build_on_errors plan = []
      · rw [hemp] at hfil
        cases hfil
      · rw [if_neg hemp] at hok
        cases hok
    · intro hall
      have hemp : build_on_errors plan = [] := by
        rw [build_on_errors, List.filter_eq_nil_iff]
        rintro ⟨k, vs⟩ hmem
        obtain ⟨hne, hvs⟩ := (mem_build_map plan k vs).mp hmem
        simp only [decide_eq_true_eq]
        rw [hvs, length_buildForsOf]
        have := hall k
        omega
      simp [validate_single_artifact_per_build_on, hemp]
  · intro errs herr
    by_cases hemp : build_on_errors plan = []
    · rw [validate_single_artifact_per_build_on, if_pos hemp] at herr
      cases herr
    · rw [validate_single_artifact_per_build_on, if_neg hemp] at herr
      have herrs : errs = build_on_errors plan := by
        cases herr
        rfl
      subst herrs
      refine ⟨hemp, ?_, ?_⟩
      · rintro ⟨k, vs⟩ hmem
        have h2 := List.mem_filter.mp hmem
        obtain ⟨hne, hvs⟩ := (mem_build_map plan k vs).mp h2.1
        exact ⟨of_decide_eq_true h2.2, hvs⟩
      · intro k hgt
        have hne : buildForsOf plan k ≠ [] := by
          intro hnil
          rw [← length_buildForsOf, hnil] at hgt
          simp at hgt
        have hmem : (k, buildForsOf plan k) ∈ build_map plan :=
          (mem_build_map plan k _).mpr ⟨hne, rfl⟩
        have hlen : 1 < (buildForsOf plan k).length := by
          rw [length_buildForsOf]
          exact hgt
        exact List.mem_filter.mpr ⟨hmem, decide_eq_true hlen⟩

theorem C5_amended_witness :
    ([("amd64", ["amd64", "i386"])] : List (String × List String)) ≠ [] ∧
    (1 < (["amd64", "i386"] : List String).length ∧
      ["amd64", "i386"] = buildForsOf [⟨"amd64", "amd64"⟩, ⟨"amd64", "i386"⟩] "amd64") ∧
    ("amd64", buildForsOf [⟨"amd64", "amd64"⟩, ⟨"amd64", "i386"⟩] "amd64")
      ∈ ([("amd64", ["amd64", "i386"])] : List (String × List String)) := by
  have h := (C5_amended_occurrence_count [⟨"amd64", "amd64"⟩, ⟨"amd64", "i386"⟩]).2
    [("amd64", ["amd64", "i386"])] (by decide)
  exact ⟨h.1, h.2.1 ("amd64", ["amd64", "i386"]) (by decide), h.2.2 "amd64" (by decide)⟩

theorem snapshot_keyfun {l : Snapshot} (h : (l.map Prod.fst).Nodup)
    {a : String} {s s' : BuildState} (h1 : (a, s) ∈ l) (h2 : (a, s') ∈ l) : s = s' := by
  induction l with
  | nil => cases h1
  | cons p rest ih =>
    simp only [List.map_cons, List.nodup_cons] at h
    rcases List.mem_cons.mp h1 with e1 | m1 <;> rcases List.mem_cons.mp h2 with e2 | m2
    · simpa using congrArg Prod.snd (e1.trans e2.symm)
    · exfalso
      apply h.1
      rw [← e1]
      exact List.mem_map.mpr ⟨(a, s'), m2, rfl⟩
    · exfalso
      apply h.1
      rw [← e2]
      exact List.mem_map.mpr ⟨(a, s), m1, rfl⟩
    · exact ih h.2 m1 m2

theorem mem_sortedBucket (states : Snapshot) (b : Bucket) (a : String) :
    a ∈ sortedBucket states b ↔ ∃ s, (a, s) ∈ states ∧ classifyState s = b := by
  rw [sortedBucket, List.mem_insertionSort]
  simp only [bucketArchs, List.mem_dedup, List.mem_map, List.mem_filter]
  constructor
  · rintro ⟨p, ⟨hp, hcb⟩, hpa⟩
    refine ⟨p.2, ?_, of_decide_eq_true hcb⟩
    have : (a, p.2) = p := by
      rw [← hpa]
    rw [this]
    exact hp
  · rintro ⟨s, hs, hcb⟩
    exact ⟨(a, s), ⟨hs, decide_eq_true hcb⟩, rfl⟩

/-- C8: for every snapshot (with one state per architecture), the five
buckets partition the snapshot's architectures (each appears in exactly one
bucket), each bucket's architecture list is sorted, and the emitted progress
line lists exactly the non-empty buckets in the fixed order stopped,
building, uploading, succeeded, pending. -/
theorem C8_buckets_partition_fixed_order (states : Snapshot)
    (h : (states.map Prod.fst).Nodup) :
    (∀ a ∈ states.map Prod.fst, ∃! b : Bucket, a ∈ sortedBucket states b) ∧
    (∀ b : Bucket, (sortedBucket states b).Sorted (fun x y => x ≤ y)) ∧
    progressParts states
      = (bucketOrder.filter (fun b => sortedBucket states b ≠ [])).map (partLine states) := by
  refine ⟨?_, ?_, ?_⟩
  · intro a ha
    obtain ⟨p, hp, hpa⟩ := List.mem_map.mp ha
    refine ⟨classifyState p.2, ?_, ?_⟩
    · show a ∈ sortedBucket states (classifyState p.2)
      rw [mem_sortedBucket]
      refine ⟨p.2, ?_, rfl⟩
      have hep : (a, p.2) = p := by
        rw [← hpa]
      rw [hep]
      exact hp
    · intro b hb
      rw [mem_sortedBucket] at hb
      obtain ⟨s, hs, hcs⟩ := hb
      have hps : (a, p.2) ∈ states := by
        have hep : (a, p.2) = p := by
          rw [← hpa]
        rw [hep]
        exact hp
      rw [← hcs, snapshot_keyfun h hs hps]
  · intro b
    exact List.sorted_insertionSort _ _
  · by_cases h1 : sortedBucket states .stopped = [] <;>
    by_cases h2 : sortedBucket states .building = [] <;>
    by_cases h3 : sortedBucket states .uploading = [] <;>
    by_cases h4 : sortedBucket states .succeeded = [] <;>
    by_cases h5 : sortedBucket states .pending = [] <;>
      simp [progressParts, bucketOrder, h1, h2, h3, h4, h5]

theorem C8_witness :
    ((sortedBucket [("b", BuildState.FAILED), ("a", BuildState.BUILDING)] .building).Sorted
      (fun x y => x ≤ y)) ∧
    progressParts [("b", BuildState.FAILED), ("a", BuildState.BUILDING)]
      = List.map (partLine [("b", BuildState.FAILED), ("a", BuildState.BUILDING)])
          (List.filter
            (fun b => sortedBucket [("b", BuildState.FAILED), ("a", BuildState.BUILDING)] b ≠ [])
            bucketOrder) := by
  have h := C8_buckets_partition_fixed_order
    [("b", BuildState.FAILED), ("a", BuildState.BUILDING)] (by decide)
  exact ⟨h.2.1 .building, h.2.2⟩
